import Mathlib

/-!
Verification of the DefinitelyTyped declaration files in this repository.

The repository consists of TypeScript ambient type declarations and
compile-time type-assertion tests for two unrelated libraries:

* a Node.js stream test file (`src/unnamed/part_000`) containing
  `$ExpectType` inferred-type assertions and `@ts-expect-error` negative
  type-checking assertions for the `node:stream` family of modules;
* the three.js renderer declarations
  (`src/types/three/src/renderers/WebGLRenderer.d.ts` and
  `src/types/three/examples/jsm/tsl/display/Lut3DNode.d.ts`).

Since the program consists of type declarations and type-level tests, the
shallow embedding models the relevant fragment of the TypeScript type
system: universes of type expressions (`TTy` for the three.js files,
`Ty` for the Node stream file), declared signatures transcribed from the
`.d.ts` sources, object-literal (excess-property) acceptance for option
bags, overload/argument acceptance for calls, and the typing rules of the
`node:stream` pipeline helpers.  The `node:stream` declaration files
themselves are not among the three source files (only their test file is),
so those signatures are modelled from the specification and the test
file's expectations; each such definition is marked
`Modelled from the spec:` in its doc comment.
-/

/-! ## Type universe for the three.js declaration files -/

/-- Type expressions occurring in `WebGLRenderer.d.ts` and `Lut3DNode.d.ts`,
restricted to the fragment the claims mention.  `unionT` is TypeScript's
union type former; generic instantiations such as `UniformNode<number>`
are represented by applying the corresponding constructor. -/
inductive TTy where
  | node
  | tempNode
  | texture3DNode
  | data3DTexture
  | numberT
  | voidT
  | vector4
  | uniformNode (t : TTy)
  | shaderNodeObject (t : TTy)
  | lut3DNode
  | unionT (a b : TTy)
  deriving DecidableEq, Repr

/-! ## `Lut3DNode.d.ts` (transcribed from the source) -/

/-- The instance members (fields) declared on `Lut3DNode`
(`Lut3DNode.d.ts`, lines 5-8). -/
inductive LutMember where
  | inputNode
  | lutNode
  | size
  | intensityNode
  deriving DecidableEq, Repr

/-- The declared member list of `Lut3DNode`, in source order. -/
def lut3DNodeMembers : List LutMember :=
  [.inputNode, .lutNode, .size, .intensityNode]

/-- Declared field types of `Lut3DNode` (`Lut3DNode.d.ts`, lines 5-8):
`inputNode: Node; lutNode: Texture3DNode;
size: ShaderNodeObject<UniformNode<number>>;
intensityNode: UniformNode<number>`. -/
def lut3DNodeFieldTy : LutMember → TTy
  | .inputNode => .node
  | .lutNode => .texture3DNode
  | .size => .shaderNodeObject (.uniformNode .numberT)
  | .intensityNode => .uniformNode .numberT

/-- Declared constructor parameter types of `Lut3DNode`
(`Lut3DNode.d.ts`, line 10): `constructor(inputNode: Node,
lutNode: UniformNode<Data3DTexture>, size: number,
intensityNode: UniformNode<number>)`.  The parameters are named after the
fields they correspond to, in the same order. -/
def lut3DNodeCtorParamTy : LutMember → TTy
  | .inputNode => .node
  | .lutNode => .uniformNode .data3DTexture
  | .size => .numberT
  | .intensityNode => .uniformNode .numberT

/-- The superclass declared for `Lut3DNode` (`declare class Lut3DNode
extends TempNode`, line 4). -/
def lut3DNodeExtends : TTy := .tempNode

/-- Parameter names and types of the exported factory `lut3D`
(`Lut3DNode.d.ts`, lines 15-20): `(node: Node, lut: Node, size: number,
intensity: Node)`. -/
def lut3DParams : List (String × TTy) :=
  [("node", .node), ("lut", .node), ("size", .numberT), ("intensity", .node)]

/-- Return type of the exported factory `lut3D`:
`ShaderNodeObject<Lut3DNode>`. -/
def lut3DReturnTy : TTy := .shaderNodeObject .lut3DNode

/-- The only `extends` edge declared in the three.js sources of this
repository is `Lut3DNode extends TempNode`; every other name is imported
opaquely from an external module, so no other subtype edge is derivable
from these files. -/
def declaredSuperT : TTy → Option TTy
  | .lut3DNode => some .tempNode
  | _ => none

/-- Nominal subtyping derivable from the declarations in this repository:
reflexivity plus the single declared `extends` edge. -/
def subT (a b : TTy) : Bool :=
  a == b || declaredSuperT a == some b

/-! ## `WebGLRenderer.d.ts`: `setViewport` and `setScissor` -/

/-- A TypeScript parameter: its declared type and whether it is optional
(marked `?`). -/
def TParam : Type := TTy × Bool

/-- Whether an argument of type `a` is accepted at a parameter of declared
type `p`: the types coincide, or `p` is a union and `a` is accepted at one
of its branches (the only assignability rule the declared signatures
need). -/
def argOk (a : TTy) : TTy → Bool
  | .unionT x y => a == .unionT x y || argOk a x || argOk a y
  | p => a == p

/-- Whether a call with the given argument types is accepted by a
signature with the given parameter list: each supplied argument must be
accepted at its positional parameter, and every parameter left without an
argument must be optional. -/
def callAccepts : List TParam → List TTy → Bool
  | [], [] => true
  | [], _ :: _ => false
  | (_, opt) :: ps, [] => opt && callAccepts ps []
  | (t, _) :: ps, a :: rest => argOk a t && callAccepts ps rest

/-- Parameters of `WebGLRenderer.setViewport`
(`WebGLRenderer.d.ts`, line 254):
`(x: Vector4 | number, y?: number, width?: number, height?: number)`. -/
def setViewportParams : List TParam :=
  [(.unionT .vector4 .numberT, false), (.numberT, true), (.numberT, true),
    (.numberT, true)]

/-- Return type of `WebGLRenderer.setViewport`: `void`. -/
def setViewportReturnTy : TTy := .voidT

/-- Parameters of `WebGLRenderer.setScissor`
(`WebGLRenderer.d.ts`, line 264):
`(x: Vector4 | number, y?: number, width?: number, height?: number)`. -/
def setScissorParams : List TParam :=
  [(.unionT .vector4 .numberT, false), (.numberT, true), (.numberT, true),
    (.numberT, true)]

/-- Return type of `WebGLRenderer.setScissor`: `void`. -/
def setScissorReturnTy : TTy := .voidT

/-! ## Theorems for the three.js claims -/

/-- C7: the 3D lookup-table shader-graph node declaration exposes exactly
the members `inputNode: Node`, `lutNode: Texture3DNode`,
`size: ShaderNodeObject<UniformNode<number>>`,
`intensityNode: UniformNode<number>`, a four-argument constructor
`(inputNode: Node, lutNode: UniformNode<Data3DTexture>, size: number,
intensityNode: UniformNode<number>)`, and a factory
`lut3D(node, lut, size, intensity)` returning
`ShaderNodeObject<Lut3DNode>`. -/
theorem lut3DNode_declaration_surface :
    lut3DNodeMembers = [.inputNode, .lutNode, .size, .intensityNode]
      ∧ lut3DNodeFieldTy .inputNode = .node
      ∧ lut3DNodeFieldTy .lutNode = .texture3DNode
      ∧ lut3DNodeFieldTy .size = .shaderNodeObject (.uniformNode .numberT)
      ∧ lut3DNodeFieldTy .intensityNode = .uniformNode .numberT
      ∧ (lut3DNodeMembers.map lut3DNodeCtorParamTy)
          = [.node, .uniformNode .data3DTexture, .numberT,
              .uniformNode .numberT]
      ∧ lut3DParams.map Prod.fst = ["node", "lut", "size", "intensity"]
      ∧ lut3DReturnTy = .shaderNodeObject .lut3DNode := by
  decide

/-- C9: in the `Lut3DNode` declaration the constructor's `lutNode`
parameter type `UniformNode<Data3DTexture>` differs from the declared
`lutNode` field type `Texture3DNode`, and under the subtyping derivable
from this repository's declarations the parameter type is not a subtype
of the field type (so a constructor-accepted `lutNode` value need not
have the field's declared type). -/
theorem lut3DNode_ctor_field_mismatch :
    lut3DNodeCtorParamTy .lutNode = .uniformNode .data3DTexture
      ∧ lut3DNodeFieldTy .lutNode = .texture3DNode
      ∧ lut3DNodeCtorParamTy .lutNode ≠ lut3DNodeFieldTy .lutNode
      ∧ subT (lut3DNodeCtorParamTy .lutNode) (lut3DNodeFieldTy .lutNode)
          = false := by
  decide

/-- C10: `WebGLRenderer.setViewport` and `WebGLRenderer.setScissor` each
accept a single `Vector4` argument or four `number` arguments, and, since
the first parameter is `Vector4 | number` with the remaining three
optional, the degenerate single-`number` call (e.g. `setViewport(5)`)
also type-checks. -/
theorem setViewport_setScissor_call_shapes :
    callAccepts setViewportParams [.vector4] = true
      ∧ callAccepts setViewportParams [.numberT, .numberT, .numberT, .numberT]
          = true
      ∧ callAccepts setViewportParams [.numberT] = true
      ∧ callAccepts setScissorParams [.vector4] = true
      ∧ callAccepts setScissorParams [.numberT, .numberT, .numberT, .numberT]
          = true
      ∧ callAccepts setScissorParams [.numberT] = true
      ∧ setViewportReturnTy = .voidT ∧ setScissorReturnTy = .voidT := by
  decide

/-! ## Type universe for the Node stream test file -/

/-- Type expressions occurring in the stream test file
(`src/unnamed/part_000`), restricted to the fragment the claims mention.
`readStreamFd0` is `typeof process.stdin`, i.e. `ReadStream & { fd: 0; }`;
`writeStreamFd1` is `typeof process.stdout`; `errCb` is the callback type
`(error?: Error | null | undefined) => void`; `chunkEncArr` is
`{ chunk: any; encoding: BufferEncoding; }[]`; `duplexWebPair r w` is the
object type `{ readable: r; writable: w; }`. -/
inductive Ty where
  | any
  | unknown
  | voidT
  | nullT
  | str
  | num
  | boolT
  | error
  | arrayBuffer
  | blob
  | nodeBuffer
  | date
  | bufferEncoding
  | readable
  | writable
  | duplex
  | transformS
  | readStreamFd0
  | writeStreamFd1
  | webReadable (t : Ty)
  | webWritable (t : Ty)
  | duplexWebPair (r w : Ty)
  | asyncIterable (t : Ty)
  | asyncGenerator (t : Ty)
  | promise (t : Ty)
  | union (a b : Ty)
  | errCb
  | transformCallback
  | chunkEncArr
  deriving DecidableEq, Repr

/-- Membership of a type in a union type: either the type equals the
whole union or it occurs in one of the branches.  This is the
assignability fragment the consumer signatures need. -/
def inUnion (t : Ty) : Ty → Bool
  | .union a b => t == .union a b || inUnion t a || inUnion t b
  | u => t == u

/-- The type a TypeScript `await` produces from an expression of the
given type: `await` on `Promise<t>` yields `t`, and on a non-promise
yields the type itself. -/
def awaited : Ty → Ty
  | .promise t => t
  | t => t

/-! ## `node:stream/consumers` (modelled) -/

/-- The five exported consumer functions of `node:stream/consumers`
exercised by `testConsumers` (`part_000`, lines 503-516). -/
inductive ConsumerFn where
  | arrayBufferC
  | blobC
  | bufferC
  | jsonC
  | textC
  deriving DecidableEq, Repr

/-- The source type accepted by the consumer functions, as used in
`testConsumers`: `ReadableStream | Readable | AsyncGenerator<any>`. -/
def consumableUnion : Ty :=
  .union (.webReadable .any) (.union .readable (.asyncGenerator .any))

/-- Modelled from the spec: the `node:stream/consumers` declaration file
is not among the sources (only its test is); the spec says each declared
signature's inferred type matches the expected literal annotation of the
test.  Each consumer takes a value assignable to
`ReadableStream | Readable | AsyncGenerator<any>` and returns a promise:
`arrayBuffer` of `ArrayBuffer`, `blob` of `Blob`, `buffer` of `Buffer`,
`json` of `unknown`, `text` of `string`; an argument outside the accepted
union is rejected (`none`). -/
def consumersResultTy (f : ConsumerFn) (arg : Ty) : Option Ty :=
  if inUnion arg consumableUnion then
    some (.promise (match f with
      | .arrayBufferC => .arrayBuffer
      | .blobC => .blob
      | .bufferC => .nodeBuffer
      | .jsonC => .unknown
      | .textC => .str))
  else none

/-- The `$ExpectType` annotations of `testConsumers` (`part_000`, lines
506-515), each attached to `await consumers.<fn>(consumable)`: the
expected awaited types are `ArrayBuffer`, `Blob`, `Buffer`, `unknown`
and `string`. -/
def testConsumersAnnots : List (ConsumerFn × Ty) :=
  [(.arrayBufferC, .arrayBuffer), (.blobC, .blob), (.bufferC, .nodeBuffer),
    (.jsonC, .unknown), (.textC, .str)]

/-! ## Simplified stream constructors (modelled options interfaces) -/

/-- The four stream classes constructed in `simplified_stream_ctor_test`
(`part_000`, lines 27-206). -/
inductive StreamClass where
  | readableC
  | writableC
  | duplexC
  | transformC
  deriving DecidableEq, Repr

/-- The instance type of each stream class. -/
def classTy : StreamClass → Ty
  | .readableC => .readable
  | .writableC => .writable
  | .duplexC => .duplex
  | .transformC => .transformS

/-- The annotated positions inside the option-bag callbacks of
`simplified_stream_ctor_test`: each value names a callback of the
constructor options object and one of its `this`/parameter positions. -/
inductive CtorKey where
  | constructThis
  | readThis
  | readSize
  | writeThis
  | writeChunk
  | writeEnc
  | writeCb
  | writevThis
  | writevChunks
  | writevCb
  | destroyThis
  | destroyError
  | destroyCb
  | finalThis
  | finalCb
  | transformThis
  | transformChunk
  | transformEnc
  | transformCb
  | flushCb
  deriving DecidableEq, Repr

/-- Modelled from the spec: the `node:stream` options-interface
declarations are not among the sources (only their test is).  Each
simplified-constructor options callback is declared with `this` bound to
the class under construction; `read` receives a `number` size; `write`
and `transform` receive an `any` chunk and a `BufferEncoding`; `writev`
receives `{ chunk: any; encoding: BufferEncoding; }[]`; `destroy`
receives `Error | null`; the completion callbacks are
`(error?: Error | null | undefined) => void` except the `Transform`
callbacks of `transform`/`flush`, which are `TransformCallback`. -/
def ctorAnnotTy (c : StreamClass) : CtorKey → Ty
  | .constructThis => classTy c
  | .readThis => classTy c
  | .readSize => .num
  | .writeThis => classTy c
  | .writeChunk => .any
  | .writeEnc => .bufferEncoding
  | .writeCb => .errCb
  | .writevThis => classTy c
  | .writevChunks => .chunkEncArr
  | .writevCb => .errCb
  | .destroyThis => classTy c
  | .destroyError => .union .error .nullT
  | .destroyCb => .errCb
  | .finalThis => classTy c
  | .finalCb => .errCb
  | .transformThis => classTy c
  | .transformChunk => .any
  | .transformEnc => .bufferEncoding
  | .transformCb => .transformCallback
  | .flushCb => .transformCallback

/-- The `$ExpectType` annotations of `simplified_stream_ctor_test`
(`part_000`, lines 27-206), transcribed in source order: each entry is
the class being constructed, the annotated position, and the literal type
the comment expects there. -/
def simplifiedCtorTestAnnots : List (StreamClass × CtorKey × Ty) :=
  [(.readableC, .constructThis, .readable),
    (.readableC, .readThis, .readable),
    (.readableC, .readSize, .num),
    (.readableC, .destroyError, .union .error .nullT),
    (.readableC, .destroyCb, .errCb),
    (.writableC, .constructThis, .writable),
    (.writableC, .writeThis, .writable),
    (.writableC, .writeChunk, .any),
    (.writableC, .writeEnc, .bufferEncoding),
    (.writableC, .writeCb, .errCb),
    (.writableC, .writevThis, .writable),
    (.writableC, .writevChunks, .chunkEncArr),
    (.writableC, .writevCb, .errCb),
    (.writableC, .destroyThis, .writable),
    (.writableC, .destroyError, .union .error .nullT),
    (.writableC, .destroyCb, .errCb),
    (.writableC, .finalThis, .writable),
    (.writableC, .finalCb, .errCb),
    (.duplexC, .constructThis, .duplex),
    (.duplexC, .readThis, .duplex),
    (.duplexC, .readSize, .num),
    (.duplexC, .writeThis, .duplex),
    (.duplexC, .writeChunk, .any),
    (.duplexC, .writeEnc, .bufferEncoding),
    (.duplexC, .writeCb, .errCb),
    (.duplexC, .writevThis, .duplex),
    (.duplexC, .writevChunks, .chunkEncArr),
    (.duplexC, .writevCb, .errCb),
    (.duplexC, .destroyThis, .duplex),
    (.duplexC, .destroyError, .union .error .nullT),
    (.duplexC, .destroyCb, .errCb),
    (.duplexC, .finalThis, .duplex),
    (.duplexC, .finalCb, .errCb),
    (.transformC, .constructThis, .transformS),
    (.transformC, .readThis, .transformS),
    (.transformC, .readSize, .num),
    (.transformC, .writeThis, .transformS),
    (.transformC, .writeChunk, .any),
    (.transformC, .writeEnc, .bufferEncoding),
    (.transformC, .writeCb, .errCb),
    (.transformC, .writevThis, .transformS),
    (.transformC, .writevChunks, .chunkEncArr),
    (.transformC, .writevCb, .errCb),
    (.transformC, .destroyThis, .transformS),
    (.transformC, .destroyError, .union .error .nullT),
    (.transformC, .destroyCb, .errCb),
    (.transformC, .finalThis, .transformS),
    (.transformC, .finalCb, .errCb),
    (.transformC, .transformThis, .transformS),
    (.transformC, .transformChunk, .any),
    (.transformC, .transformEnc, .bufferEncoding),
    (.transformC, .transformCb, .transformCallback),
    (.transformC, .flushCb, .transformCallback)]

/-- C1: for every annotated call of the cited stream-test functions the
inferred type equals the annotated literal type; in particular, for any
value whose type lies in `ReadableStream | Readable | AsyncGenerator<any>`,
`consumers.arrayBuffer` yields `Promise<ArrayBuffer>`, `consumers.blob`
yields `Promise<Blob>`, `consumers.json` yields `Promise<unknown>`, and
`consumers.text` yields `Promise<string>`; moreover every `$ExpectType`
annotation of `testConsumers` and of `simplified_stream_ctor_test`
matches the declared (modelled) signature. -/
theorem consumers_and_ctor_inferred_types (t : Ty)
    (h : inUnion t consumableUnion = true) :
    consumersResultTy .arrayBufferC t = some (.promise .arrayBuffer)
      ∧ consumersResultTy .blobC t = some (.promise .blob)
      ∧ consumersResultTy .jsonC t = some (.promise .unknown)
      ∧ consumersResultTy .textC t = some (.promise .str)
      ∧ (∀ p ∈ testConsumersAnnots,
          (consumersResultTy p.1 consumableUnion).map awaited = some p.2)
      ∧ (∀ p ∈ simplifiedCtorTestAnnots,
          ctorAnnotTy p.1 p.2.1 = p.2.2) := by
  refine ⟨?_, ?_, ?_, ?_, ?_, ?_⟩
  · simp [consumersResultTy, h]
  · simp [consumersResultTy, h]
  · simp [consumersResultTy, h]
  · simp [consumersResultTy, h]
  · decide
  · decide

/-- Witness for C1 at the concrete member type `Readable` of the
accepted union. -/
theorem consumers_and_ctor_inferred_types_witness :
    consumersResultTy .arrayBufferC .readable = some (.promise .arrayBuffer) :=
  (consumers_and_ctor_inferred_types .readable (by decide)).1

/-! ## Option bags and negative type-checking tests -/

/-- TypeScript excess-property checking for a fresh object literal: the
literal is accepted at an object type exactly when every property name it
mentions is declared by that type. -/
def objectLiteralAccepted (lit allowed : List String) : Bool :=
  lit.all fun k => allowed.contains k

/-- Modelled from the spec: the callback version of `finished` (the one
passed to `promisify`) takes a `FinishedOptions` bag declaring the
properties `error`, `readable`, `writable` and `signal` but no
`cleanup` — the test comments this as
`callback version does not allow options.cleanup` (`part_000`, line
228). -/
def finishedCallbackOptionFields : List String :=
  ["error", "readable", "writable", "signal"]

/-- Modelled from the spec: the `node:stream/promises` version of
`finished` additionally accepts the `cleanup` property (`part_000`, line
236 passes `{ cleanup: false }` without error). -/
def finishedPromiseOptionFields : List String :=
  ["error", "readable", "writable", "signal", "cleanup"]

/-- Modelled from the spec: `Readable.fromWeb` handles only a subset of
`ReadableOptions` — `encoding`, `highWaterMark`, `objectMode`, `signal` —
so an options literal with the unsupported `emitClose` is rejected
(`part_000`, lines 611-617). -/
def fromWebReadableOptionFields : List String :=
  ["encoding", "highWaterMark", "objectMode", "signal"]

/-- Modelled from the spec: acceptance of the overload
`reduce(fn: (previous: T, data: any) => T, initial: T)` at a monomorphic
instance: the reducer's first-parameter type, the reducer's return type
and the initial value's type must all instantiate the same `T`. -/
def reduceInitAccepts (prev ret init : Ty) : Bool :=
  prev == init && ret == init

/-- Modelled from the spec: the result type of
`reduce(fn: (previous, data) => T)` without an initial value is
`Promise<T>`. -/
def reduceNoInitResultTy (ret : Ty) : Ty := .promise ret

/-- C2: every call shape the test designates as invalid is rejected while
the neighbouring positive variants are accepted: the promisified callback
`finished` rejects an options literal containing `cleanup` while
`finishedPromise` accepts `{ cleanup: false }` (and both accept the
`error`/`readable`/`writable`/`signal` variants); `Readable.prototype.reduce`
rejects an initial value whose type disagrees with the reducer's return
type (reducer `number → number` with initial `"1"`) or first argument
(reducer first argument `string`, return `number`, initial `1`) while
accepting the consistent all-`number` call; and `Readable.fromWeb`
rejects an options literal containing the unsupported `emitClose` while
accepting `{ objectMode: true }`. -/
theorem negative_type_tests_rejected :
    objectLiteralAccepted ["cleanup"] finishedCallbackOptionFields = false
      ∧ objectLiteralAccepted ["cleanup"] finishedPromiseOptionFields = true
      ∧ objectLiteralAccepted ["error"] finishedCallbackOptionFields = true
      ∧ objectLiteralAccepted ["readable"] finishedCallbackOptionFields = true
      ∧ objectLiteralAccepted ["writable"] finishedCallbackOptionFields = true
      ∧ objectLiteralAccepted ["signal"] finishedCallbackOptionFields = true
      ∧ objectLiteralAccepted ["signal"] finishedPromiseOptionFields = true
      ∧ reduceInitAccepts .num .num .num = true
      ∧ reduceNoInitResultTy .num = .promise .num
      ∧ reduceInitAccepts .num .num .str = false
      ∧ reduceInitAccepts .str .num .num = false
      ∧ objectLiteralAccepted ["emitClose"] fromWebReadableOptionFields = false
      ∧ objectLiteralAccepted ["objectMode"] fromWebReadableOptionFields
          = true := by
  decide

/-! ## Web-stream interop helpers (modelled) -/

/-- Modelled from the spec: `Readable.toWeb(streamReadable)` takes a
`Readable` and returns `ReadableStream<any>` (test `part_000`, lines
578-603). -/
def readableToWebTy (t : Ty) : Option Ty :=
  if t == .readable then some (.webReadable .any) else none

/-- Modelled from the spec: `Readable.fromWeb(readableStream)` takes a
web `ReadableStream` and returns `Readable` (test `part_000`, lines
605-618). -/
def readableFromWebTy : Ty → Option Ty
  | .webReadable _ => some .readable
  | _ => none

/-- Modelled from the spec: `Writable.toWeb(streamWritable)` takes a
`Writable` and returns `WritableStream<any>` (test `part_000`, lines
620-624). -/
def writableToWebTy (t : Ty) : Option Ty :=
  if t == .writable then some (.webWritable .any) else none

/-- Modelled from the spec: `Writable.fromWeb(writableStream)` takes a
web `WritableStream` and returns `Writable` (test `part_000`, lines
626-639). -/
def writableFromWebTy : Ty → Option Ty
  | .webWritable _ => some .writable
  | _ => none

/-- Modelled from the spec: `Duplex.toWeb(streamDuplex)` takes a `Duplex`
and returns the pair object type
`{ readable: ReadableStream<any>; writable: WritableStream<any>; }`
(test `part_000`, lines 641-645). -/
def duplexToWebTy (t : Ty) : Option Ty :=
  if t == .duplex then
    some (.duplexWebPair (.webReadable .any) (.webWritable .any))
  else none

/-- Modelled from the spec: `Duplex.fromWeb(pair)` takes an object
pairing a web `ReadableStream` with a web `WritableStream` and returns
`Duplex` (test `part_000`, lines 655-664). -/
def duplexFromWebTy : Ty → Option Ty
  | .duplexWebPair (.webReadable _) (.webWritable _) => some .duplex
  | _ => none

/-- Modelled from the spec: among its accepted sources, `Duplex.from`
takes a lone web `ReadableStream` or a lone web `WritableStream` and
returns `Duplex` (test `part_000`, lines 670-674; the full declaration
accepts further source kinds not exercised by the claim). -/
def duplexFromTy : Ty → Option Ty
  | .webReadable _ => some .duplex
  | .webWritable _ => some .duplex
  | _ => none

/-- C6: the Node-stream/web-stream interop helpers form a typed round
trip: `Readable.toWeb` on a `Readable` yields `ReadableStream<any>` and
`Readable.fromWeb` on any web `ReadableStream` yields `Readable` (so the
composite returns to `Readable`); likewise `Writable.toWeb` yields
`WritableStream<any>` and `Writable.fromWeb` yields `Writable`;
`Duplex.toWeb` yields
`{ readable: ReadableStream<any>; writable: WritableStream<any>; }` and
`Duplex.fromWeb` on such a pair yields `Duplex`; and `Duplex.from`
accepts either a web `ReadableStream` or a web `WritableStream` alone,
yielding `Duplex`. -/
theorem web_interop_round_trip (r w : Ty) :
    readableToWebTy .readable = some (.webReadable .any)
      ∧ readableFromWebTy (.webReadable r) = some .readable
      ∧ (readableToWebTy .readable).bind readableFromWebTy = some .readable
      ∧ writableToWebTy .writable = some (.webWritable .any)
      ∧ writableFromWebTy (.webWritable w) = some .writable
      ∧ (writableToWebTy .writable).bind writableFromWebTy = some .writable
      ∧ duplexToWebTy .duplex
          = some (.duplexWebPair (.webReadable .any) (.webWritable .any))
      ∧ duplexFromWebTy (.duplexWebPair (.webReadable r) (.webWritable w))
          = some .duplex
      ∧ (duplexToWebTy .duplex).bind duplexFromWebTy = some .duplex
      ∧ duplexFromTy (.webReadable r) = some .duplex
      ∧ duplexFromTy (.webWritable w) = some .duplex := by
  refine ⟨rfl, rfl, rfl, rfl, rfl, rfl, rfl, rfl, rfl, rfl, rfl⟩

/-! ## Pipeline typing (modelled) -/

/-- An element of a `pipeline`/`pipelinePromise` call, as the typing
rules see it: a stream object of type `t`; an iterable source value of
type `t` (e.g. the string `"tasty"` or a `Buffer`); a generator-function
source yielding `y`; an async-generator transform whose `source`
parameter is optionally annotated and which yields `y`; or an async
function whose parameter is optionally annotated and which returns
`Promise<r>`. -/
inductive PipeElem where
  | stream (t : Ty)
  | value (t : Ty)
  | genFnSrc (y : Ty)
  | transform (annot : Option Ty) (y : Ty)
  | promiseFn (annot : Option Ty) (r : Ty)
  deriving DecidableEq, Repr

/-- Modelled from the spec: the type the pipeline feeds to the parameter
of the element that follows this one.  A stream or iterable-value source
is passed through at its own type (so `process.stdin` feeds
`ReadStream & { fd: 0; }` and `"tasty"` feeds `string`), while a
generator-function source or an async-generator transform feeds
`AsyncIterable` of its yield type. -/
def feedTy : PipeElem → Ty
  | .stream t => t
  | .value t => t
  | .genFnSrc y => .asyncIterable y
  | .transform _ y => .asyncIterable y
  | .promiseFn _ r => r

/-- Whether a transform's `source` parameter is well-typed against the
type the previous element feeds: an unannotated parameter is inferred (so
always accepted), an annotated one must be annotated with exactly the fed
type. -/
def paramOk (expected : Ty) : Option Ty → Bool
  | none => true
  | some a => expected == a

/-- Whether a stream type can stand as a pipeline destination: the
writable side of the stream classes (`process.stdout`, `Writable`,
`Duplex`, `Transform`). -/
def isWritableTy : Ty → Bool
  | .writeStreamFd1 => true
  | .writable => true
  | .duplex => true
  | .transformS => true
  | _ => false

/-- Whether an element can stand as the pipeline's source: a stream, an
iterable value, or a generator function. -/
def isSourceElem : PipeElem → Bool
  | .stream _ => true
  | .value _ => true
  | .genFnSrc _ => true
  | _ => false

/-- Modelled from the spec: well-typedness of the part of a pipeline
after its source, given the type `feed` the previous element feeds.
Middle elements are transforms whose parameter must accept `feed`; the
final element is either a writable stream destination, a final transform,
or an async function returning a promise, and its parameter (when it has
one) must also accept `feed`. -/
def chainOk : Ty → List PipeElem → Bool
  | _, [] => false
  | feed, [last] =>
    match last with
    | .stream t => isWritableTy t
    | .transform a _ => paramOk feed a
    | .promiseFn a _ => paramOk feed a
    | _ => false
  | feed, e :: rest =>
    match e with
    | .transform a y => paramOk feed a && chainOk (.asyncIterable y) rest
    | _ => false

/-- Modelled from the spec: well-typedness of a whole
`pipeline`/`pipelinePromise` call: a valid source followed by a
well-typed chain. -/
def pipelineOk : List PipeElem → Bool
  | [] => false
  | src :: rest => isSourceElem src && chainOk (feedTy src) rest

/-- Modelled from the spec: the type the returned promise of
`pipelinePromise` resolves to, as a function of the final element: `void`
for a stream destination or a final transform, and `r` for an async
function returning `Promise<r>` (`pipelinePromise` only checks
writability of a final stream inside `pipelineOk`). -/
def lastResultTy : PipeElem → Option Ty
  | .stream _ => some .voidT
  | .transform _ _ => some .voidT
  | .promiseFn _ r => some r
  | _ => none

/-- Modelled from the spec: the resolved type of the promise returned by
`pipelinePromise`, defined when the pipeline is well-typed. -/
def pipelinePromiseResolvedTy (es : List PipeElem) : Option Ty :=
  if pipelineOk es then es.getLast?.bind lastResultTy else none

/-- Modelled from the spec: the property names declared by the trailing
`PipelineOptions` bag of `pipelinePromise`: `signal` and `end`
(`part_000`, lines 484-501 exercise `{}`, `{ signal }`, `{ end }` and
both). -/
def pipelineOptionFields : List String := ["signal", "end"]

/-- Modelled from the spec: the resolved type of `pipelinePromise` when a
trailing options literal with the given property names is supplied: the
literal must pass excess-property checking against `PipelineOptions`, and
the result type is unchanged. -/
def pipelinePromiseResolvedTyOpts (es : List PipeElem) (opts : List String) :
    Option Ty :=
  if objectLiteralAccepted opts pipelineOptionFields then
    pipelinePromiseResolvedTy es
  else none

/-- The inferred type of the `source` parameter of the first transform of
a pipeline: its annotation if present, else the type fed by the source
element. -/
def firstTransformParamTy : List PipeElem → Option Ty
  | src :: .transform a _ :: _ => some (a.getD (feedTy src))
  | _ => none

/-! ## The concrete pipelines of `streamPipelineAsyncTransform` -/

/-- The first `pipeline` call of `streamPipelineAsyncTransform`
(`part_000`, lines 245-257): `pipeline(process.stdin,
async function*(source) {...yield chunk.toUpperCase()...},
process.stdout, ...)`. -/
def pipelineStdinUpper : List PipeElem :=
  [.stream .readStreamFd0, .transform none .str, .stream .writeStreamFd1]

/-- The second `pipeline` call of `streamPipelineAsyncTransform`
(`part_000`, lines 260-273): `pipeline("tasty",
async function*(source) {...yield chunk.toUpperCase()...},
async function*(source: AsyncIterable<string>) {...yield null}, ...)`. -/
def pipelineTastyUpper : List PipeElem :=
  [.value .str, .transform none .str,
    .transform (some (.asyncIterable .str)) .nullT]

/-- The third `pipeline` call of `streamPipelineAsyncTransform`
(`part_000`, lines 276-285): `pipeline("tasty",
async function*(source) {...}, async (source: AsyncIterable<string>) =>
new Date(), ...)`. -/
def pipelineTastyDate : List PipeElem :=
  [.value .str, .transform none .str,
    .promiseFn (some (.asyncIterable .str)) .date]

/-- C4: the pipeline helper preserves the type of its source into the
first async-generator transform: in the test pipeline whose source is
`process.stdin` the transform's `source` parameter has type
`ReadStream & { fd: 0; }`, in the test pipeline whose source is the
string `"tasty"` it has type `string`, and the downstream transform of
the latter pipeline, whose parameter is annotated
`AsyncIterable<string>`, is accepted after the string-yielding transform
(the whole pipeline type-checks). -/
theorem pipeline_source_type_preserved :
    pipelineOk pipelineStdinUpper = true
      ∧ firstTransformParamTy pipelineStdinUpper = some .readStreamFd0
      ∧ pipelineOk pipelineTastyUpper = true
      ∧ firstTransformParamTy pipelineTastyUpper = some .str
      ∧ chainOk (.asyncIterable .str)
          [.transform (some (.asyncIterable .str)) .nullT] = true := by
  decide

/-- C5: the promise-returning pipeline helper's result type is determined
by its last element: every well-typed pipeline whose final element is a
stream destination resolves to `void`, and every well-typed pipeline
whose final element is an async function returning `Promise<r>` resolves
to `r`; the same typing holds when a trailing options literal acceptable
to `PipelineOptions` (any subset of `signal`/`end`) is supplied. -/
theorem pipelinePromise_result_from_last (init : List PipeElem) (t r : Ty)
    (a : Option Ty) (opts : List String)
    (hopts : objectLiteralAccepted opts pipelineOptionFields = true) :
    (pipelineOk (init ++ [.stream t]) = true →
        pipelinePromiseResolvedTy (init ++ [.stream t]) = some .voidT
          ∧ pipelinePromiseResolvedTyOpts (init ++ [.stream t]) opts
              = some .voidT)
      ∧ (pipelineOk (init ++ [.promiseFn a r]) = true →
          pipelinePromiseResolvedTy (init ++ [.promiseFn a r]) = some r
            ∧ pipelinePromiseResolvedTyOpts (init ++ [.promiseFn a r]) opts
                = some r) := by
  constructor
  · intro h
    have hl : (init ++ [PipeElem.stream t]).getLast? = some (.stream t) := by
      simp
    constructor
    · simp [pipelinePromiseResolvedTy, h, hl, lastResultTy]
    · simp [pipelinePromiseResolvedTyOpts, hopts, pipelinePromiseResolvedTy,
        h, hl, lastResultTy]
  · intro h
    have hl : (init ++ [PipeElem.promiseFn a r]).getLast?
        = some (.promiseFn a r) := by
      simp
    constructor
    · simp [pipelinePromiseResolvedTy, h, hl, lastResultTy]
    · simp [pipelinePromiseResolvedTyOpts, hopts, pipelinePromiseResolvedTy,
        h, hl, lastResultTy]

/-- Witness for C5 at the concrete test pipelines: the
`process.stdin`-to-`process.stdout` pipeline resolves to `void`, and the
`"tasty"`-to-`Date` pipeline with a `{ signal }` options literal resolves
to `Date`. -/
theorem pipelinePromise_result_from_last_witness :
    pipelinePromiseResolvedTy
        ([PipeElem.stream .readStreamFd0, .transform none .str]
          ++ [.stream .writeStreamFd1]) = some .voidT
      ∧ pipelinePromiseResolvedTyOpts
          ([PipeElem.value .str, .transform none .str]
            ++ [.promiseFn (some (.asyncIterable .str)) .date]) ["signal"]
          = some .date :=
  ⟨((pipelinePromise_result_from_last
      [.stream .readStreamFd0, .transform none .str] .writeStreamFd1 .date
      none ["signal"] (by decide)).1 (by decide)).1,
    ((pipelinePromise_result_from_last [.value .str, .transform none .str]
      .writeStreamFd1 .date (some (.asyncIterable .str)) ["signal"]
      (by decide)).2 (by decide)).2⟩

/-! ## Module structure: files, import specifiers, resolution -/

/-- Path of the stream test file, as slash-separated segments. -/
def streamTestPath : List String := ["src", "unnamed", "part_000"]

/-- Path of the renderer declaration file. -/
def webGLRendererPath : List String :=
  ["src", "types", "three", "src", "renderers", "WebGLRenderer.d.ts"]

/-- Path of the lookup-table node declaration file. -/
def lut3DNodePath : List String :=
  ["src", "types", "three", "examples", "jsm", "tsl", "display",
    "Lut3DNode.d.ts"]

/-- The three source files of the repository. -/
def repoPaths : List (List String) :=
  [streamTestPath, webGLRendererPath, lut3DNodePath]

/-- The import specifiers of the stream test file (`part_000`, lines
1-25), in source order. -/
def streamTestImportSpecs : List String :=
  ["node:fs", "node:stream", "node:util", "node:zlib", "node:assert",
    "node:buffer", "node:http2", "node:perf_hooks", "node:process",
    "node:stream/consumers", "node:stream/promises", "node:stream/web",
    "node:timers/promises", "node:worker_threads"]

/-- The import specifiers of `WebGLRenderer.d.ts` (lines 1-27), in source
order. -/
def webGLRendererImportSpecs : List String :=
  ["../cameras/Camera.js", "../constants.js", "../core/BufferAttribute.js",
    "../core/BufferGeometry.js", "../core/Object3D.js",
    "../materials/Material.js", "../math/Box2.js", "../math/Box3.js",
    "../math/Color.js", "../math/Plane.js", "../math/Vector2.js",
    "../math/Vector3.js", "../math/Vector4.js", "../scenes/Scene.js",
    "../textures/Data3DTexture.js", "../textures/DataArrayTexture.js",
    "../textures/Texture.js", "./webgl/WebGLCapabilities.js",
    "./webgl/WebGLExtensions.js", "./webgl/WebGLInfo.js",
    "./webgl/WebGLProgram.js", "./webgl/WebGLProperties.js",
    "./webgl/WebGLRenderLists.js", "./webgl/WebGLShadowMap.js",
    "./webgl/WebGLState.js", "./WebGLRenderTarget.js",
    "./webxr/WebXRManager.js"]

/-- The import specifiers of `Lut3DNode.d.ts` (lines 1-2). -/
def lut3DNodeImportSpecs : List String := ["three/tsl", "three/webgpu"]

/-- Splits a character list at every slash. -/
def splitSlashAux : List Char → List Char → List (List Char)
  | [], acc => [acc.reverse]
  | c :: rest, acc =>
    if c == '/' then acc.reverse :: splitSlashAux rest []
    else splitSlashAux rest (c :: acc)

/-- Splits an import specifier into its slash-separated segments. -/
def splitSlash (s : String) : List String :=
  (splitSlashAux s.data []).map String.mk

/-- The path segment `..`. -/
def parentSeg : String := ".."

/-- The path segment `.`. -/
def hereSeg : String := "."

/-- A specifier is relative (module-local) exactly when it starts with
`./` or `../`; all other specifiers are bare package specifiers, which
Node/TypeScript resolution sends to installed external packages, never to
a file of the importing repository. -/
def isRelSpec (s : String) : Bool :=
  match splitSlash s with
  | h :: _ => h == hereSeg || h == parentSeg
  | [] => false

/-- Normalises a segment path: drops `.` segments and lets `..` segments
cancel the preceding segment. -/
def normSegs (segs : List String) : List String :=
  segs.foldl
    (fun acc seg =>
      if seg == hereSeg then acc
      else if seg == parentSeg then acc.dropLast
      else acc ++ [seg])
    []

/-- Resolves a relative import specifier against the importing file's
directory. -/
def resolveRel (dir : List String) (spec : String) : List String :=
  normSegs (dir ++ splitSlash spec)

/-- The characters of the extension `.js`. -/
def jsChars : List Char := ['.', 'j', 's']

/-- The characters of the extension `.d.ts`. -/
def dtsChars : List Char := ['.', 'd', '.', 't', 's']

/-- TypeScript resolves an emitted-JavaScript specifier segment `X.js` to
the declaration file `X.d.ts`; other segments are left unchanged. -/
def toDts (s : String) : String :=
  if s.data.reverse.take 3 == jsChars.reverse then
    String.mk (s.data.take (s.data.length - 3) ++ dtsChars)
  else s

/-- Applies a function to the last segment of a path. -/
def mapLast (f : String → String) : List String → List String
  | [] => []
  | [a] => [f a]
  | a :: b :: rest => a :: mapLast f (b :: rest)

/-- Whether an import written in the file at `file` resolves to one of
the repository's own source files: bare specifiers resolve externally;
a relative specifier resolves into the repository exactly when its
normalised target (directly or through the `.js` to `.d.ts` declaration
mapping) is one of the repository's file paths. -/
def resolvesToRepoFile (file : List String) (spec : String) : Bool :=
  if isRelSpec spec then
    repoPaths.contains (resolveRel file.dropLast spec)
      || repoPaths.contains (mapLast toDts (resolveRel file.dropLast spec))
  else false

/-- C8: the two declaration sets are mutually independent: no import of
any of the three source files resolves to another file of this
repository (in particular no stream-test import reaches the renderer
set and vice versa, and since an ECMAScript module can only reference
another module's declared symbols through an import, neither set
references a symbol declared in the other); the stream test file and
`Lut3DNode.d.ts` use only bare (external package) specifiers, and every
relative specifier of `WebGLRenderer.d.ts` resolves outside the
repository's file set. -/
theorem declaration_sets_independent :
    (streamTestImportSpecs.all fun s =>
        !resolvesToRepoFile streamTestPath s) = true
      ∧ (webGLRendererImportSpecs.all fun s =>
          !resolvesToRepoFile webGLRendererPath s) = true
      ∧ (lut3DNodeImportSpecs.all fun s =>
          !resolvesToRepoFile lut3DNodePath s) = true
      ∧ (streamTestImportSpecs.all fun s => !isRelSpec s) = true
      ∧ (lut3DNodeImportSpecs.all fun s => !isRelSpec s) = true
      ∧ (webGLRendererImportSpecs.all fun s => isRelSpec s) = true := by
  decide

/-! ## Module evaluation: top-level constructs and observable trace -/

/-- A top-level construct of one of the source files: an import
declaration; a pure (ambient) type/interface/class/const declaration with
no initialiser; a function definition (whose body runs only when the
function is invoked), carrying the output-primitive calls occurring in
its body; or a top-level statement (expression statement, block of
statements, or initialised `const`), carrying the names of the functions,
constructors and methods it invokes. -/
inductive Construct where
  | importDecl (specifier : String)
  | ambientDecl (name : String)
  | funcDef (name : String) (outputCalls : List String)
  | exprStmt (callees : List String)
  deriving DecidableEq, Repr

/-- The observable-output primitives reachable from this code:
`console.log`, `console.error` and direct writes to standard output. -/
def outputPrimitives : List String :=
  ["console.log", "console.error", "process.stdout.write"]

/-- The output-primitive calls in the bodies of the file's function
definitions matching the given name (empty when the name is not defined
in the file). -/
def fnBodyOutputs (file : List Construct) (callee : String) : List String :=
  file.foldr
    (fun c acc =>
      match c with
      | .funcDef n outs => if n == callee then outs ++ acc else acc
      | _ => acc)
    []

/-- Modelled from the spec: the observable trace contributed by one
call at the top level of a module.  A call to an output primitive emits
that primitive; a call to a function defined in the file emits its body's
output calls (one level of expansion is exact here because no function
defined in these files invokes another function defined in them); a call
to an imported or built-in library function emits nothing, matching the
spec's statement that the repository declares no runtime behaviour of its
own. -/
def calleeTrace (file : List Construct) (callee : String) : List String :=
  if outputPrimitives.contains callee then [callee]
  else fnBodyOutputs file callee

/-- Modelled from the spec: evaluating a module runs its imports and its
top-level statements in order; type declarations and function definitions
contribute nothing, and each top-level statement contributes the traces
of the calls it performs. -/
def moduleTrace (file : List Construct) : List String :=
  file.foldr
    (fun c acc =>
      match c with
      | .exprStmt callees => (callees.map (calleeTrace file)).flatten ++ acc
      | _ => acc)
    []

/-- The observable trace of the empty program, the spec-side reference
for the refinement claim: no output at all. -/
def emptyProgramTrace : List String := []

/-- The names of the functions a file defines. -/
def localFnNames (file : List Construct) : List String :=
  file.filterMap fun c =>
    match c with
    | .funcDef n _ => some n
    | _ => none

/-- Whether a construct is a pure declaration (import or ambient
declaration), running no code at module evaluation. -/
def isDeclOnly : Construct → Bool
  | .importDecl _ => true
  | .ambientDecl _ => true
  | _ => false

/-- The top-level constructs of the stream test file (`part_000`), in
source order: the imports (lines 1-25), the never-invoked test function
definitions with the output-primitive calls their bodies contain, and the
top-level statements/blocks (lines 547-675, 791-830) with the functions,
constructors and methods they call. -/
def streamTestConstructs : List Construct :=
  streamTestImportSpecs.map Construct.importDecl
    ++ [.funcDef "simplified_stream_ctor_test" [],
      .funcDef "streamPipelineFinished" [],
      .funcDef "asyncStreamPipelineFinished" [],
      .funcDef "streamPipelineAsyncTransform"
        ["console.error", "console.log", "console.error", "console.error",
          "console.log", "console.error", "console.error"],
      .funcDef "streamPipelineAsyncPromiseTransform" ["console.log"],
      .funcDef "streamPipelineAsyncPromiseAbortTransform" ["console.log"],
      .funcDef "streamPipelineAsyncPromiseOptions" [],
      .funcDef "testConsumers" [],
      .funcDef "stream_readable_pipe_test" [],
      .funcDef "stream_duplex_allowHalfOpen_test" [],
      .exprStmt ["new AbortSignal", "new Readable", "addAbortSignal"],
      .exprStmt ["Readable.from"],
      .exprStmt ["new Readable", "unshift"],
      .exprStmt ["new Readable", "Readable.isDisturbed"],
      .exprStmt ["new Readable", "isErrored", "new Duplex", "isErrored",
        "new Writable", "isErrored"],
      .exprStmt ["new Readable", "isReadable", "new Duplex", "isReadable"],
      .exprStmt ["new Readable", "Readable.toWeb", "Readable.toWeb",
        "Readable.toWeb", "Readable.toWeb"],
      .exprStmt ["new ReadableStream", "Readable.fromWeb",
        "Readable.fromWeb", "Readable.fromWeb"],
      .exprStmt ["new Writable", "Writable.toWeb"],
      .exprStmt ["new WritableStream", "Writable.fromWeb",
        "Writable.fromWeb", "Writable.fromWeb"],
      .exprStmt ["new Duplex", "Duplex.toWeb"],
      .exprStmt ["duplexPair"],
      .exprStmt ["new ReadableStream", "new WritableStream",
        "Duplex.fromWeb", "Duplex.fromWeb", "Duplex.fromWeb", "Duplex.from",
        "Duplex.from"],
      .funcDef "testReadableReduce" [],
      .funcDef "testReadableFind" [],
      .funcDef "testReadableStream" [],
      .funcDef "testWritableStream" ["console.log"],
      .funcDef "testTransformStream" [],
      .funcDef "testTransferringStreamWithPostMessage" [],
      .exprStmt ["new Transform", "on", "once", "addListener",
        "prependOnceListener"],
      .exprStmt ["new Blob", "stream", "getReader", "new Blob", "stream",
        "new ReadableStreamBYOBReader", "cancel", "cancel",
        "new Uint8Array", "read", "new Uint8Array", "read",
        "new Uint8Array", "read", "releaseLock"]]

/-- The top-level constructs of `WebGLRenderer.d.ts`: imports followed by
the ambient declarations `WebGLRendererParameters`, `WebGLDebug` and
`WebGLRenderer`. -/
def webGLRendererConstructs : List Construct :=
  webGLRendererImportSpecs.map Construct.importDecl
    ++ [.ambientDecl "WebGLRendererParameters", .ambientDecl "WebGLDebug",
      .ambientDecl "WebGLRenderer"]

/-- The top-level constructs of `Lut3DNode.d.ts`: its two imports, the
ambient class declaration `Lut3DNode` (with its default export) and the
ambient `const` declaration `lut3D`. -/
def lut3DNodeConstructs : List Construct :=
  lut3DNodeImportSpecs.map Construct.importDecl
    ++ [.ambientDecl "Lut3DNode", .ambientDecl "lut3D"]

/-- C3: evaluating each of the three source files as a program is
equivalent to the empty program: each module's observable trace equals
the empty program's trace; moreover no top-level statement of the stream
test file invokes any function the file defines (so the function
definitions are never invoked and the output primitives in their bodies
never run), and the two `.d.ts` files consist solely of imports and
ambient declarations. -/
theorem files_observably_empty :
    moduleTrace streamTestConstructs = emptyProgramTrace
      ∧ moduleTrace webGLRendererConstructs = emptyProgramTrace
      ∧ moduleTrace lut3DNodeConstructs = emptyProgramTrace
      ∧ (streamTestConstructs.all fun c =>
          match c with
          | .exprStmt callees =>
            callees.all fun k =>
              !(localFnNames streamTestConstructs).contains k
                && !outputPrimitives.contains k
          | _ => true) = true
      ∧ (webGLRendererConstructs.all isDeclOnly) = true
      ∧ (lut3DNodeConstructs.all isDeclOnly) = true := by
  decide
